import Mathlib

/-
Verification of the person-record CRUD service (FastAPI + ViaCEP + Postgres).

Shallow embedding of the core logic of `models.py`, `db.py` and `app.py`:
the pydantic validators, the ViaCEP lookup with its lru_cache memo table,
the repository operations over the `persons` table (modelled as a list of
rows plus an id counter and a logical clock standing for NOW()), and the
HTTP handlers.  Timestamps are natural numbers: every write stamps the
current clock and advances it, mirroring the trigger
`update_persons_updated_at` which sets `updated_at = NOW()` on each UPDATE.
-/

namespace PersonsApi

/-- Address information resolved from a postal-code lookup: the `AddressInfo`
model in `models.py`, and the dict built by `fetch_via_cep_cached` in `app.py`
(keys `cep`, `street`, `neighborhood`, `city`, `state`). -/
structure AddressInfo where
  cep : String
  street : Option String := none
  neighborhood : Option String := none
  city : Option String := none
  state : Option String := none
  deriving DecidableEq, Repr

/-- One row of the `public.persons` table (`db.py`, `ensure_schema`).
`created_at` and `updated_at` are logical clock values. -/
structure PersonRecord where
  id : Nat
  first_name : String
  last_name : String
  age : Int
  height_cm : Option Rat
  weight_kg : Option Rat
  cep : Option String
  street : Option String
  neighborhood : Option String
  city : Option String
  state : Option String
  created_at : Nat
  updated_at : Nat
  deriving DecidableEq, Repr

/-- The database state: the rows of `persons`, the BIGSERIAL id counter, and a
logical clock standing for the value NOW() would return next. -/
structure Store where
  rows : List PersonRecord
  nextId : Nat
  now : Nat
  deriving DecidableEq, Repr

/-- The empty freshly created table. -/
def initStore : Store := { rows := [], nextId := 1, now := 0 }

/-- Python `re.sub(r"\D", "", s)`: strip every non-digit character. -/
def stripNonDigits (s : String) : String :=
  String.mk (s.data.filter Char.isDigit)

/-- Python `s.replace("-", "")` as applied to the provider `cep` field. -/
def stripDashes (s : String) : String :=
  String.mk (s.data.filter (fun c => c ≠ '-'))

/-- The `validate_cep` validator body shared by `PersonIn`, `PersonUpdate` and
`CEPUpdate` in `models.py`: strip non-digits, require exactly 8 digits, and
return the normalized code; `none` models the raised `ValueError`. -/
def validate_cep (v : String) : Option String :=
  let cep_limpo := stripNonDigits v
  if cep_limpo.length = 8 then some cep_limpo else none

/-- Acceptance of a supplied `cep` string by the pydantic models: the field
constraints `min_length=8, max_length=9` are checked on the raw string first,
then the `validate_cep` validator runs.  `some c` means accepted with
normalized value `c`; `none` means the payload is rejected. -/
def acceptCep (raw : String) : Option String :=
  if 8 ≤ raw.length ∧ raw.length ≤ 9 then validate_cep raw else none

/-- Python truthiness-respecting range check used by pydantic `Field(ge, le)`
on an optional numeric field. -/
def rangeOk (v : Option Rat) (hi : Rat) : Bool :=
  match v with
  | none => true
  | some x => decide (0 ≤ x ∧ x ≤ hi)

/-- A raw POST /persons payload, before pydantic validation (`PersonIn` fields
in `models.py`). -/
structure RawPersonIn where
  first_name : String
  last_name : String
  age : Int
  height_cm : Option Rat := none
  weight_kg : Option Rat := none
  cep : Option String := none
  deriving DecidableEq, Repr

/-- A validated `PersonIn` instance: `cep`, when present, is the normalized
8-digit code produced by `validate_cep`. -/
structure PersonIn where
  first_name : String
  last_name : String
  age : Int
  height_cm : Option Rat := none
  weight_kg : Option Rat := none
  cep : Option String := none
  deriving DecidableEq, Repr

/-- Pydantic validation of `PersonIn` (`models.py`): field constraints on
names, age, height, weight, and the cep pipeline `acceptCep`. -/
def validatePersonIn (p : RawPersonIn) : Option PersonIn :=
  if 1 ≤ p.first_name.length ∧ p.first_name.length ≤ 80
      ∧ 1 ≤ p.last_name.length ∧ p.last_name.length ≤ 80
      ∧ 0 ≤ p.age ∧ p.age ≤ 120
      ∧ rangeOk p.height_cm 300 = true ∧ rangeOk p.weight_kg 500 = true then
    match p.cep with
    | none => some { first_name := p.first_name, last_name := p.last_name,
                     age := p.age, height_cm := p.height_cm,
                     weight_kg := p.weight_kg, cep := none }
    | some raw =>
      match acceptCep raw with
      | some c => some { first_name := p.first_name, last_name := p.last_name,
                         age := p.age, height_cm := p.height_cm,
                         weight_kg := p.weight_kg, cep := some c }
      | none => none
  else none

/-- A raw PUT /persons payload (`PersonUpdate` fields in `models.py`). -/
structure RawPersonUpdate where
  first_name : Option String := none
  last_name : Option String := none
  age : Option Int := none
  height_cm : Option Rat := none
  weight_kg : Option Rat := none
  cep : Option String := none
  deriving DecidableEq, Repr

/-- A validated `PersonUpdate` instance. -/
structure PersonUpdate where
  first_name : Option String := none
  last_name : Option String := none
  age : Option Int := none
  height_cm : Option Rat := none
  weight_kg : Option Rat := none
  cep : Option String := none
  deriving DecidableEq, Repr

/-- Optional string field constraint `min_length=1, max_length=80`. -/
def nameOk (v : Option String) : Bool :=
  match v with
  | none => true
  | some s => decide (1 ≤ s.length ∧ s.length ≤ 80)

/-- Optional int field constraint `ge=0, le=120`. -/
def ageOk (v : Option Int) : Bool :=
  match v with
  | none => true
  | some a => decide (0 ≤ a ∧ a ≤ 120)

/-- Pydantic validation of `PersonUpdate` (`models.py`). -/
def validatePersonUpdate (p : RawPersonUpdate) : Option PersonUpdate :=
  if nameOk p.first_name = true ∧ nameOk p.last_name = true ∧ ageOk p.age = true
      ∧ rangeOk p.height_cm 300 = true ∧ rangeOk p.weight_kg 500 = true then
    match p.cep with
    | none => some { first_name := p.first_name, last_name := p.last_name,
                     age := p.age, height_cm := p.height_cm,
                     weight_kg := p.weight_kg, cep := none }
    | some raw =>
      match acceptCep raw with
      | some c => some { first_name := p.first_name, last_name := p.last_name,
                         age := p.age, height_cm := p.height_cm,
                         weight_kg := p.weight_kg, cep := some c }
      | none => none
  else none

/-- A validated `CEPUpdate` body (`models.py`): a mandatory, normalized cep. -/
structure CEPUpdate where
  cep : String
  deriving DecidableEq, Repr

/-- Pydantic validation of `CEPUpdate` (`models.py`): same field constraint
and validator pipeline as the other two models. -/
def validateCEPUpdate (raw : String) : Option CEPUpdate :=
  match acceptCep raw with
  | some c => some { cep := c }
  | none => none

/-- Outcome of the outbound HTTP request ViaCEP performed inside
`fetch_via_cep_cached` (`app.py`): the request may raise (network failure,
timeout -- both `requests.RequestException`), any other exception may occur
while handling the response, or a response with a status code and body comes
back. -/
inductive ProviderBody where
  | malformed
  | fields (erro : Bool) (cep logradouro bairro localidade uf : Option String)
  deriving DecidableEq, Repr

/-- Behaviour of one outbound call to the provider. `requestException` covers
network failures, `timeoutError` the bounded-wait expiry (also raised as a
`requests.RequestException`), `otherException` any other raised error, and
`response` an HTTP reply whose body is either unparseable JSON or a JSON
object with ViaCEP fields. -/
inductive ProviderOutcome where
  | requestException
  | timeoutError
  | otherException
  | response (status : Nat) (body : ProviderBody)
  deriving DecidableEq, Repr

/-- Python `x or None` on an optional string, as in
`data.get("logradouro") or None`: a missing key or an empty string both
collapse to `None`. -/
def orNone (v : Option String) : Option String :=
  match v with
  | some s => if s = "" then none else some s
  | none => none

/-- Mapping of the provider call outcome to the optional address performed by
the body of `fetch_via_cep_cached` (`app.py` lines 62-80): a 200 reply whose
JSON carries no truthy `erro` flag becomes an `AddressInfo`; every other
outcome -- non-200 status, `erro` flag, unparseable body, raised
exception -- becomes `none`. -/
def handleProviderOutcome (o : ProviderOutcome) : Option AddressInfo :=
  match o with
  | .requestException => none
  | .timeoutError => none
  | .otherException => none
  | .response status body =>
    if status = 200 then
      match body with
      | .malformed => none
      | .fields erro cep logradouro bairro localidade uf =>
        if erro then none
        else some { cep := stripDashes (cep.getD ""),
                    street := orNone logradouro,
                    neighborhood := orNone bairro,
                    city := orNone localidade,
                    state := orNone uf }
    else none

/-- The body of `fetch_via_cep_cached` on a cache miss, for a deterministic
provider behaviour: normalize the argument, require 8 digits, then perform the
outbound call.  The second component counts outbound provider calls (0 or 1). -/
def fetchViaCepUncached (provider : String → ProviderOutcome) (cep : String) :
    Option AddressInfo × Nat :=
  let cep_limpo := stripNonDigits cep
  if cep_limpo.length = 8 then (handleProviderOutcome (provider cep_limpo), 1)
  else (none, 0)

/-- The memo table of `functools.lru_cache` on `fetch_via_cep_cached`, keyed by
the raw `cep` argument.  The 1000-entry bound is not modelled: no verified
property exercises eviction. -/
abbrev Cache := List (String × Option AddressInfo)

/-- The function `fetch_via_cep_cached` including its lru_cache layer: on a hit the stored
value is returned with no outbound call; on a miss the body runs and the
result (positive or negative) is stored under the raw key.  Returns the value,
the new memo table, and the number of outbound provider calls made. -/
def fetchViaCepCached (provider : String → ProviderOutcome) (cache : Cache)
    (cep : String) : Option AddressInfo × Cache × Nat :=
  match cache.lookup cep with
  | some v => (v, cache, 0)
  | none =>
    let r := fetchViaCepUncached provider cep
    (r.1, (cep, r.1) :: cache, r.2)

/-- The function `fetch_via_cep` as a pure value.  With a deterministic provider the cached
computation returns the same value as the uncached body on every consistent
memo table (lemma `fetchViaCepCached_value` below), so the handlers consume
lookups through this function. -/
def fetchViaCep (provider : String → ProviderOutcome) (cep : String) :
    Option AddressInfo :=
  (fetchViaCepUncached provider cep).1

/-- A memo table is consistent with a provider when every stored entry is what
the uncached body returns for its key. -/
def CacheConsistent (provider : String → ProviderOutcome) (cache : Cache) : Prop :=
  ∀ kv ∈ cache, kv.2 = fetchViaCep provider kv.1

/-- Row values passed to `create_person_db`: the `person_data` dict built by
`create_person` (`app.py`). -/
structure PersonData where
  first_name : String
  last_name : String
  age : Int
  height_cm : Option Rat
  weight_kg : Option Rat
  cep : Option String
  street : Option String
  neighborhood : Option String
  city : Option String
  state : Option String
  deriving DecidableEq, Repr

/-- The repository create `create_person_db` (`db.py`): INSERT a full row -- every column value is
written, including the NULLs -- with the store assigning the id and both
timestamps, and RETURNING the persisted row. -/
def create_person_db (s : Store) (d : PersonData) : PersonRecord × Store :=
  let r : PersonRecord := {
    id := s.nextId, first_name := d.first_name, last_name := d.last_name,
    age := d.age, height_cm := d.height_cm, weight_kg := d.weight_kg,
    cep := d.cep, street := d.street, neighborhood := d.neighborhood,
    city := d.city, state := d.state, created_at := s.now, updated_at := s.now }
  (r, { rows := s.rows ++ [r], nextId := s.nextId + 1, now := s.now + 1 })

/-- The repository read `get_person_db` (`db.py`): SELECT by primary key. -/
def get_person_db (s : Store) (pid : Nat) : Option PersonRecord :=
  s.rows.find? (fun r => r.id == pid)

/-- The `person_data` dict passed to `update_person_db`.  A `none` field is
either absent from the dict or present with value `None`; `update_person_db`
skips both when composing the SET clause, so they are identified here. -/
structure UpdateData where
  first_name : Option String := none
  last_name : Option String := none
  age : Option Int := none
  height_cm : Option Rat := none
  weight_kg : Option Rat := none
  cep : Option String := none
  street : Option String := none
  neighborhood : Option String := none
  city : Option String := none
  state : Option String := none
  deriving DecidableEq, Repr

/-- True when the composed SET clause of `update_person_db` would be empty. -/
def UpdateData.isEmpty (u : UpdateData) : Bool :=
  u.first_name.isNone && u.last_name.isNone && u.age.isNone &&
  u.height_cm.isNone && u.weight_kg.isNone && u.cep.isNone &&
  u.street.isNone && u.neighborhood.isNone && u.city.isNone && u.state.isNone

/-- SET of one nullable column: written when the update dict supplies a value,
kept otherwise. -/
def setCol {α : Type} (new : Option α) (old : Option α) : Option α :=
  match new with
  | some v => some v
  | none => old

/-- Effect on one row of the UPDATE statement composed by `update_person_db`,
together with the `update_persons_updated_at` trigger stamping
`updated_at = NOW()`. -/
def applyUpdate (u : UpdateData) (now : Nat) (r : PersonRecord) : PersonRecord :=
  { id := r.id,
    first_name := u.first_name.getD r.first_name,
    last_name := u.last_name.getD r.last_name,
    age := u.age.getD r.age,
    height_cm := setCol u.height_cm r.height_cm,
    weight_kg := setCol u.weight_kg r.weight_kg,
    cep := setCol u.cep r.cep,
    street := setCol u.street r.street,
    neighborhood := setCol u.neighborhood r.neighborhood,
    city := setCol u.city r.city,
    state := setCol u.state r.state,
    created_at := r.created_at,
    updated_at := now }

/-- The repository update `update_person_db` (`db.py`): build the SET clause from the non-`None`
entries only; with an empty clause, read and return the current row without
writing; otherwise UPDATE the matching row and RETURN it. -/
def update_person_db (s : Store) (pid : Nat) (u : UpdateData) :
    Option PersonRecord × Store :=
  if u.isEmpty then (get_person_db s pid, s)
  else
    let newRows := s.rows.map (fun r => if r.id == pid then applyUpdate u s.now r else r)
    (newRows.find? (fun r => r.id == pid),
     { rows := newRows, nextId := s.nextId, now := s.now + 1 })

/-- The repository delete `delete_person_db` (`db.py`): DELETE by id, reporting `rowcount > 0`. -/
def delete_person_db (s : Store) (pid : Nat) : Bool × Store :=
  (s.rows.any (fun r => r.id == pid),
   { s with rows := s.rows.filter (fun r => r.id != pid) })

/-- The repository list `list_persons_db` (`db.py`): COUNT the table, then SELECT ordered by
`created_at` DESC with LIMIT and OFFSET. -/
def list_persons_db (s : Store) (limit offset : Nat) :
    List PersonRecord × Nat :=
  let sorted := List.insertionSort
    (fun a b => b.created_at ≤ a.created_at) s.rows
  (((sorted.drop offset).take limit), s.rows.length)

/-- The `PersonOut` response model (`models.py`). -/
structure PersonOut where
  id : Nat
  first_name : String
  last_name : String
  age : Int
  height_cm : Option Rat
  weight_kg : Option Rat
  cep : Option String
  street : Option String
  neighborhood : Option String
  city : Option String
  state : Option String
  created_at : Option Nat
  deriving DecidableEq, Repr

/-- Response shaping `PersonOut(**resultado)` from a returned row. -/
def PersonOut.ofRecord (r : PersonRecord) : PersonOut :=
  { id := r.id, first_name := r.first_name, last_name := r.last_name,
    age := r.age, height_cm := r.height_cm, weight_kg := r.weight_kg,
    cep := r.cep, street := r.street, neighborhood := r.neighborhood,
    city := r.city, state := r.state, created_at := some r.created_at }

/-- Outcome of a handler: a successful payload, or an `HTTPException` carrying
its status code (messages are not modelled). -/
inductive HResult (α : Type) where
  | ok (value : α)
  | fail (status : Nat)
  deriving DecidableEq, Repr

/-- The `create_person` handler (POST /persons, `app.py`) on a validated
`PersonIn`.  Returns the response, the resulting store, and the number of
`fetch_via_cep` invocations made. -/
def create_person (provider : String → ProviderOutcome) (s : Store)
    (person : PersonIn) : HResult PersonOut × Store × Nat :=
  match person.cep with
  | some cep =>
    match fetchViaCep provider cep with
    | none => (.fail 400, s, 1)
    | some endereco =>
      let d : PersonData := {
        first_name := person.first_name, last_name := person.last_name,
        age := person.age, height_cm := person.height_cm,
        weight_kg := person.weight_kg,
        cep := some endereco.cep, street := endereco.street,
        neighborhood := endereco.neighborhood, city := endereco.city,
        state := endereco.state }
      let rs := create_person_db s d
      (.ok (PersonOut.ofRecord rs.1), rs.2, 1)
  | none =>
    let d : PersonData := {
      first_name := person.first_name, last_name := person.last_name,
      age := person.age, height_cm := person.height_cm,
      weight_kg := person.weight_kg,
      cep := person.cep, street := none, neighborhood := none,
      city := none, state := none }
    let rs := create_person_db s d
    (.ok (PersonOut.ofRecord rs.1), rs.2, 0)

/-- The whole POST /persons request: pydantic validation runs before the
handler, and a validation failure is a 422 reply that reaches neither the
lookup client nor the store. -/
def createRequest (provider : String → ProviderOutcome) (s : Store)
    (raw : RawPersonIn) : HResult PersonOut × Store × Nat :=
  match validatePersonIn raw with
  | none => (.fail 422, s, 0)
  | some p => create_person provider s p

/-- The `update_person` handler (PUT /persons, `app.py`): check existence, copy
the supplied scalar fields into the update dict, resolve a supplied cep
(failing hard when the lookup returns nothing) and merge the five address
entries, then run the repository update. -/
def update_person (provider : String → ProviderOutcome) (s : Store) (pid : Nat)
    (pu : PersonUpdate) : HResult PersonOut × Store × Nat :=
  match get_person_db s pid with
  | none => (.fail 404, s, 0)
  | some _ =>
    let base : UpdateData := {
      first_name := pu.first_name, last_name := pu.last_name, age := pu.age,
      height_cm := pu.height_cm, weight_kg := pu.weight_kg }
    match pu.cep with
    | none =>
      match update_person_db s pid base with
      | (some r, s2) => (.ok (PersonOut.ofRecord r), s2, 0)
      | (none, s2) => (.fail 500, s2, 0)
    | some cep =>
      match fetchViaCep provider cep with
      | none => (.fail 400, s, 1)
      | some endereco =>
        let u : UpdateData := { base with
          cep := some endereco.cep, street := endereco.street,
          neighborhood := endereco.neighborhood, city := endereco.city,
          state := endereco.state }
        match update_person_db s pid u with
        | (some r, s2) => (.ok (PersonOut.ofRecord r), s2, 1)
        | (none, s2) => (.fail 500, s2, 1)

/-- The `update_person_cep` handler (PATCH /persons/id/cep, `app.py`): check
existence, resolve the mandatory cep (hard 400 on a failed lookup), then run
the repository update with only the five address entries. -/
def update_person_cep (provider : String → ProviderOutcome) (s : Store)
    (pid : Nat) (cu : CEPUpdate) : HResult PersonOut × Store × Nat :=
  match get_person_db s pid with
  | none => (.fail 404, s, 0)
  | some _ =>
    match fetchViaCep provider cu.cep with
    | none => (.fail 400, s, 1)
    | some endereco =>
      let u : UpdateData := {
        cep := some endereco.cep, street := endereco.street,
        neighborhood := endereco.neighborhood, city := endereco.city,
        state := endereco.state }
      match update_person_db s pid u with
      | (some r, s2) => (.ok (PersonOut.ofRecord r), s2, 1)
      | (none, s2) => (.fail 500, s2, 1)

/-- The `delete_person` handler (DELETE /persons, `app.py`): a `False` from the
repository becomes a 404 reply, a `True` a confirmation message. -/
def delete_person (s : Store) (pid : Nat) : HResult String × Store :=
  match delete_person_db s pid with
  | (true, s2) => (.ok "Pessoa removida com sucesso", s2)
  | (false, s2) => (.fail 404, s2)

/-- The page object returned by `list_persons` (`app.py`). -/
structure ListOut where
  persons : List PersonOut
  total : Nat
  limit : Int
  offset : Int
  has_next : Bool
  deriving DecidableEq, Repr

/-- The `list_persons` handler (GET /persons, `app.py`): FastAPI rejects a limit
outside [1,100] or a negative offset before the handler runs; otherwise the
repository page is shaped with the total and `has_next`. -/
def list_persons (s : Store) (limit offset : Int) : HResult ListOut :=
  if 1 ≤ limit ∧ limit ≤ 100 ∧ 0 ≤ offset then
    let pt := list_persons_db s limit.toNat offset.toNat
    .ok { persons := pt.1.map PersonOut.ofRecord, total := pt.2,
          limit := limit, offset := offset,
          has_next := decide (offset + limit < (pt.2 : Int)) }
  else .fail 422

/-- The `create_person_webhook` handler (POST /webhook/persons, `app.py`): it
simply delegates to `create_person`. -/
def create_person_webhook (provider : String → ProviderOutcome) (s : Store)
    (person : PersonIn) : HResult PersonOut × Store × Nat :=
  create_person provider s person

/-- One public mutating request, with its raw (pre-validation) payload. -/
inductive Op where
  | createOp (raw : RawPersonIn)
  | updateOp (pid : Nat) (raw : RawPersonUpdate)
  | updateCepOp (pid : Nat) (raw : String)
  | deleteOp (pid : Nat)
  deriving DecidableEq, Repr

/-- Store transition of one request.  A payload rejected by pydantic leaves
the store untouched. -/
def stepOp (provider : String → ProviderOutcome) (s : Store) (op : Op) : Store :=
  match op with
  | .createOp raw => (createRequest provider s raw).2.1
  | .updateOp pid raw =>
    match validatePersonUpdate raw with
    | none => s
    | some pu => (update_person provider s pid pu).2.1
  | .updateCepOp pid raw =>
    match validateCEPUpdate raw with
    | none => s
    | some cu => (update_person_cep provider s pid cu).2.1
  | .deleteOp pid => (delete_person s pid).2

/-- Store reached by a sequence of public requests. -/
def runOps (provider : String → ProviderOutcome) (s : Store) : List Op → Store
  | [] => s
  | op :: ops => runOps provider (stepOp provider s op) ops

/-! Concrete instances used by counterexamples and witnesses. -/

/-- A deterministic provider with two known codes: a fully populated address
for 01001000 and a city-level address for 29100000 whose `logradouro` and
`bairro` come back empty, as ViaCEP does for municipality-wide codes. -/
def cexProvider : String → ProviderOutcome := fun c =>
  if c = "01001000" then
    .response 200 (.fields false (some "01001-000") (some "Praca da Se")
      (some "Se") (some "Sao Paulo") (some "SP"))
  else if c = "29100000" then
    .response 200 (.fields false (some "29100-000") (some "") (some "")
      (some "Vila Velha") (some "ES"))
  else
    .response 200 (.fields true none none none none none)

/-- The address `cexProvider` resolves for 29100000: no street, no
neighborhood. -/
def cexAddrB : AddressInfo :=
  { cep := "29100000", street := none, neighborhood := none,
    city := some "Vila Velha", state := some "ES" }

/-- A create payload carrying the fully populated code 01001000. -/
def cexRawIn : RawPersonIn :=
  { first_name := "Ana", last_name := "Silva", age := 30, cep := some "01001000" }

/-- Create a person at 01001000, then move them to 29100000 through the
postal-only update endpoint. -/
def cexOps : List Op := [Op.createOp cexRawIn, Op.updateCepOp 1 "29100000"]

/-- A provider that answers every 8-digit code with the same fully populated
address, which reports its own code. -/
def wProvider : String → ProviderOutcome := fun _ =>
  .response 200 (.fields false (some "01001000") (some "Rua A") (some "Centro")
    (some "Sao Paulo") (some "SP"))

/-- The address `wProvider` always resolves. -/
def wAddr : AddressInfo :=
  { cep := "01001000", street := some "Rua A", neighborhood := some "Centro",
    city := some "Sao Paulo", state := some "SP" }

/-! Generic supporting lemmas. -/

/-- Running `find?` by id over the row map performed by `update_person_db`: when the
original list yields `r`, the mapped list yields the updated `r`, for any
per-row function that preserves ids. -/
theorem find?_map_update (rows : List PersonRecord) (pid : Nat)
    (f : PersonRecord → PersonRecord) (hf : ∀ x, (f x).id = x.id)
    (r : PersonRecord) (h : rows.find? (fun x => x.id == pid) = some r) :
    (rows.map (fun x => if x.id == pid then f x else x)).find?
      (fun x => x.id == pid) = some (f r) := by
  induction rows with
  | nil => simp at h
  | cons a l ih =>
    by_cases ha : (a.id == pid) = true
    · simp only [List.find?_cons, ha] at h
      obtain rfl : a = r := by injection h
      have hfa : ((f a).id == pid) = true := by rw [hf a]; exact ha
      simp only [List.map_cons, if_pos ha, List.find?_cons, hfa]
    · have ha' : (a.id == pid) = false := by simpa using ha
      simp only [List.find?_cons, ha'] at h
      simp only [List.map_cons]
      rw [if_neg ha]
      simp only [List.find?_cons, ha']
      exact ih h

/-- Applying `applyUpdate` never changes the row id. -/
theorem applyUpdate_id (u : UpdateData) (now : Nat) (r : PersonRecord) :
    (applyUpdate u now r).id = r.id := rfl

/-- A cached lookup on a consistent memo table returns the uncached value and
keeps the table consistent. -/
theorem fetchViaCepCached_value (provider : String → ProviderOutcome)
    (cache : Cache) (cep : String) (h : CacheConsistent provider cache) :
    (fetchViaCepCached provider cache cep).1 = fetchViaCep provider cep ∧
    CacheConsistent provider (fetchViaCepCached provider cache cep).2.1 := by
  unfold fetchViaCepCached
  cases hl : cache.lookup cep with
  | some v =>
    refine ⟨?_, by simpa [fetchViaCepCached, hl] using h⟩
    obtain ⟨l₁, l₂, hsplit, -⟩ := List.lookup_eq_some_iff.mp hl
    have hmem : (cep, v) ∈ cache := by
      rw [hsplit]; exact List.mem_append_right _ (List.mem_cons_self _ _)
    exact h _ hmem
  | none =>
    refine ⟨rfl, ?_⟩
    intro kv hkv
    rcases List.mem_cons.mp hkv with hkv | hkv
    · subst hkv; rfl
    · exact h _ hkv

/-! Claim C3. -/

/-- C3 counterexample: the raw string "01.001-000" strips to exactly 8 digits,
yet validation rejects it, because the pydantic field constraint
`max_length=9` is checked on the raw string before the stripping validator
runs.  Acceptance is therefore not equivalent to the stripped string having
exactly 8 digits. -/
theorem cep_ten_char_formatted_code_rejected :
    (stripNonDigits "01.001-000").length = 8 ∧ acceptCep "01.001-000" = none := by
  decide

/-- C3 (amended): a supplied postal-code string is accepted iff its raw length
is between 8 and 9 characters and stripping all non-digits leaves exactly 8
digits; the accepted value is the stripped 8-digit string; and a create
payload whose postal code fails validation is rejected with neither a lookup
call nor a store change. -/
theorem cep_validation_characterization (raw : String)
    (provider : String → ProviderOutcome) (s : Store) (p : RawPersonIn)
    (rawc : String) (hc : p.cep = some rawc) (hbad : acceptCep rawc = none) :
    ((∃ c, acceptCep raw = some c) ↔
      8 ≤ raw.length ∧ raw.length ≤ 9 ∧ (stripNonDigits raw).length = 8)
    ∧ (∀ c, acceptCep raw = some c → c = stripNonDigits raw)
    ∧ createRequest provider s p = (.fail 422, s, 0) := by
  have hval : ∀ c, acceptCep raw = some c →
      (8 ≤ raw.length ∧ raw.length ≤ 9) ∧ (stripNonDigits raw).length = 8
        ∧ c = stripNonDigits raw := by
    intro c hcs
    unfold acceptCep validate_cep at hcs
    by_cases h89 : 8 ≤ raw.length ∧ raw.length ≤ 9
    · rw [if_pos h89] at hcs
      by_cases h8 : (stripNonDigits raw).length = 8
      · simp only [h8, if_true] at hcs
        exact ⟨h89, h8, by injection hcs with h; exact h.symm⟩
      · simp [h8] at hcs
    · rw [if_neg h89] at hcs; exact absurd hcs (by simp)
  refine ⟨⟨fun ⟨c, hcs⟩ => ?_, fun ⟨h1, h2, h3⟩ => ?_⟩, fun c hcs => (hval c hcs).2.2, ?_⟩
  · obtain ⟨h89, h8, -⟩ := hval c hcs
    exact ⟨h89.1, h89.2, h8⟩
  · refine ⟨stripNonDigits raw, ?_⟩
    unfold acceptCep validate_cep
    rw [if_pos ⟨h1, h2⟩]
    simp [h3]
  · have hv : validatePersonIn p = none := by
      unfold validatePersonIn
      split
      · rw [hc]
        simp [hbad]
      · rfl
    simp [createRequest, hv]

/-- A raw create payload whose postal code is malformed. -/
def badRawIn : RawPersonIn :=
  { first_name := "Ana", last_name := "Silva", age := 30, cep := some "123" }

/-- Witness for C3 at the formatted code "01001-000" and the malformed create
payload `badRawIn`. -/
theorem cep_validation_characterization_witness :
    ((∃ c, acceptCep "01001-000" = some c) ↔
      8 ≤ ("01001-000" : String).length ∧ ("01001-000" : String).length ≤ 9
        ∧ (stripNonDigits "01001-000").length = 8)
    ∧ (∀ c, acceptCep "01001-000" = some c → c = stripNonDigits "01001-000")
    ∧ createRequest cexProvider initStore badRawIn = (.fail 422, initStore, 0) :=
  cep_validation_characterization "01001-000" cexProvider initStore badRawIn
    "123" rfl (by decide)

/-! Claim C5. -/

/-- C5 counterexample: the raw inputs "01001-000" and "01001000" normalize to
the same 8-digit code, but the lru_cache is keyed by the raw argument, so the
second resolve call misses the cache and performs a second outbound provider
call (count 1, not 0); only the returned values coincide. -/
theorem lookup_cache_misses_on_differently_formatted_raw :
    stripNonDigits "01001-000" = stripNonDigits "01001000"
    ∧ (fetchViaCepCached wProvider
        (fetchViaCepCached wProvider [] "01001-000").2.1 "01001000").2.2 = 1
    ∧ (fetchViaCepCached wProvider
        (fetchViaCepCached wProvider [] "01001-000").2.1 "01001000").1
      = (fetchViaCepCached wProvider [] "01001-000").1 := by
  decide

/-- C5 (amended): the lru_cache memo table is keyed by the raw argument
string, and caches positive and negative results alike: a second resolve call
with the same raw input as a first one returns an identical value without a
second outbound provider call. -/
theorem lookup_cache_same_raw_key_hits (provider : String → ProviderOutcome)
    (cache : Cache) (cep : String) :
    (fetchViaCepCached provider (fetchViaCepCached provider cache cep).2.1 cep).1
      = (fetchViaCepCached provider cache cep).1
    ∧ (fetchViaCepCached provider
        (fetchViaCepCached provider cache cep).2.1 cep).2.2 = 0 := by
  unfold fetchViaCepCached
  cases hl : cache.lookup cep with
  | some v => simp [hl]
  | none => simp [hl, List.lookup_cons]

/-! Claim C6. -/

/-- Provider misbehaviour as listed by the specification: a raised request
exception (network failure), a timeout, any other raised exception, a
non-success HTTP status, or a malformed response body. -/
def providerMisbehaves (o : ProviderOutcome) : Prop :=
  o = .requestException ∨ o = .timeoutError ∨ o = .otherException
  ∨ (∃ status body, o = .response status body ∧ status ≠ 200)
  ∨ (∃ status, o = .response status .malformed)

/-- C6: the response mapping of `fetch_via_cep_cached` handles every provider
outcome and sends each misbehaving one to `none`, the very value produced for
a provider-confirmed unknown code, so the caller cannot distinguish the two
through the return value. -/
theorem provider_misbehaviour_is_not_found (o : ProviderOutcome)
    (h : providerMisbehaves o) :
    handleProviderOutcome o = none
    ∧ handleProviderOutcome o
      = handleProviderOutcome
          (.response 200 (.fields true none none none none none)) := by
  have hnf : handleProviderOutcome
      (.response 200 (.fields true none none none none none)) = none := by
    simp [handleProviderOutcome]
  rcases h with rfl | rfl | rfl | ⟨st, body, rfl, hne⟩ | ⟨st, rfl⟩
  · exact ⟨rfl, hnf.symm⟩
  · exact ⟨rfl, hnf.symm⟩
  · exact ⟨rfl, hnf.symm⟩
  · have hmis : handleProviderOutcome (.response st body) = none := by
      simp [handleProviderOutcome, hne]
    exact ⟨hmis, by rw [hnf, hmis]⟩
  · have hmis : handleProviderOutcome (.response st .malformed) = none := by
      by_cases hst : st = 200 <;> simp [handleProviderOutcome, hst]
    exact ⟨hmis, by rw [hnf, hmis]⟩

/-- Witness for C6 at the concrete outcome of a network failure. -/
theorem provider_misbehaviour_is_not_found_witness :
    handleProviderOutcome ProviderOutcome.requestException = none
    ∧ handleProviderOutcome ProviderOutcome.requestException
      = handleProviderOutcome
          (.response 200 (.fields true none none none none none)) :=
  provider_misbehaviour_is_not_found _ (Or.inl rfl)

/-! Claim C8. -/

/-- C8: the repository delete reports through its boolean exactly whether a
row with the given id existed; a missing id gives the 404 not-found outcome of
the handler with the store untouched, not an error; and after a successful
delete a second delete of the same id reports `false` again. -/
theorem delete_reports_existence_and_second_delete_not_found
    (s : Store) (pid : Nat) :
    ((delete_person_db s pid).1 = true ↔ ∃ r ∈ s.rows, r.id = pid)
    ∧ ((delete_person_db s pid).1 = false → delete_person s pid = (.fail 404, s))
    ∧ ((delete_person_db s pid).1 = true →
        (delete_person_db (delete_person_db s pid).2 pid).1 = false) := by
  refine ⟨?_, ?_, ?_⟩
  · simp [delete_person_db, List.any_eq_true]
  · intro hfalse
    have hnone : ∀ r ∈ s.rows, ¬ r.id = pid := by
      simpa [delete_person_db, List.any_eq_true] using hfalse
    have hfilter : s.rows.filter (fun r => r.id != pid) = s.rows := by
      apply List.filter_eq_self.mpr
      intro r hr
      simpa using hnone r hr
    have hdb : delete_person_db s pid = (false, s) := by
      unfold delete_person_db
      rw [hfilter, Prod.mk.injEq]
      exact ⟨hfalse, rfl⟩
    unfold delete_person
    rw [hdb]
  · intro _
    simp only [delete_person_db]
    apply List.any_eq_false.mpr
    intro r hr
    rw [List.mem_filter] at hr
    have hne := hr.2
    simp only [bne_iff_ne, ne_eq] at hne
    simpa using hne

/-! Claim C10. -/

/-- C10: POST /webhook/persons delegates to POST /persons: for every provider
behaviour, store and validated payload, `create_person_webhook` produces the
same response, the same store and the same lookup-call count as
`create_person`. -/
theorem webhook_create_extensionally_equal
    (provider : String → ProviderOutcome) (s : Store) (p : PersonIn) :
    create_person_webhook provider s p = create_person provider s p := rfl

/-! Claim C9. -/

/-- C9: the repository update touches only the supplied non-`None` fields:
with an empty update dict it performs no write and returns the current row
unchanged; otherwise the returned row is the current row with exactly the
supplied fields overwritten (and the trigger-stamped `updated_at`); hence an
optional field that is set can never be cleared back to NULL through update. -/
theorem update_touches_only_supplied_fields (s : Store) (pid : Nat)
    (u : UpdateData) :
    (u.isEmpty = true → update_person_db s pid u = (get_person_db s pid, s))
    ∧ (u.isEmpty = false → ∀ r, get_person_db s pid = some r →
        (update_person_db s pid u).1 = some (applyUpdate u s.now r))
    ∧ (∀ r r2, get_person_db s pid = some r →
        (update_person_db s pid u).1 = some r2 →
        (u.first_name = none → r2.first_name = r.first_name)
        ∧ (u.last_name = none → r2.last_name = r.last_name)
        ∧ (u.age = none → r2.age = r.age)
        ∧ (u.height_cm = none → r2.height_cm = r.height_cm)
        ∧ (u.weight_kg = none → r2.weight_kg = r.weight_kg)
        ∧ (u.cep = none → r2.cep = r.cep)
        ∧ (u.street = none → r2.street = r.street)
        ∧ (u.neighborhood = none → r2.neighborhood = r.neighborhood)
        ∧ (u.city = none → r2.city = r.city)
        ∧ (u.state = none → r2.state = r.state)
        ∧ (r.height_cm.isSome → r2.height_cm.isSome)
        ∧ (r.weight_kg.isSome → r2.weight_kg.isSome)
        ∧ (r.cep.isSome → r2.cep.isSome)) := by
  have h2 : u.isEmpty = false → ∀ r, get_person_db s pid = some r →
      (update_person_db s pid u).1 = some (applyUpdate u s.now r) := by
    intro hne r hget
    simp only [update_person_db, hne, Bool.false_eq_true, if_false]
    exact find?_map_update s.rows pid (applyUpdate u s.now)
      (applyUpdate_id u s.now) r hget
  refine ⟨fun he => by simp [update_person_db, he], h2, ?_⟩
  intro r r2 hget hres
  by_cases he : u.isEmpty = true
  · have hru : (update_person_db s pid u).1 = get_person_db s pid := by
      simp [update_person_db, he]
    rw [hru, hget] at hres
    obtain rfl : r = r2 := by injection hres
    simp
  · have hne : u.isEmpty = false := by simpa using he
    rw [h2 hne r hget] at hres
    obtain rfl : applyUpdate u s.now r = r2 := by injection hres
    refine ⟨fun h => by simp [applyUpdate, h],
            fun h => by simp [applyUpdate, h],
            fun h => by simp [applyUpdate, h],
            fun h => by simp [applyUpdate, setCol, h],
            fun h => by simp [applyUpdate, setCol, h],
            fun h => by simp [applyUpdate, setCol, h],
            fun h => by simp [applyUpdate, setCol, h],
            fun h => by simp [applyUpdate, setCol, h],
            fun h => by simp [applyUpdate, setCol, h],
            fun h => by simp [applyUpdate, setCol, h],
            fun h => ?_, fun h => ?_, fun h => ?_⟩
    · cases hu : u.height_cm <;> simp [applyUpdate, setCol, hu] <;> exact h
    · cases hu : u.weight_kg <;> simp [applyUpdate, setCol, hu] <;> exact h
    · cases hu : u.cep <;> simp [applyUpdate, setCol, hu] <;> exact h

/-- A stored row used by witnesses. -/
def wRec : PersonRecord :=
  { id := 1, first_name := "Ana", last_name := "Silva", age := 30,
    height_cm := none, weight_kg := none, cep := some "01001000",
    street := some "Rua A", neighborhood := some "Centro",
    city := some "Sao Paulo", state := some "SP",
    created_at := 0, updated_at := 0 }

/-- A one-row store used by witnesses. -/
def wStore1 : Store := { rows := [wRec], nextId := 2, now := 5 }

/-- An update dict supplying only the age. -/
def wU : UpdateData := { age := some 31 }

/-- Witness for C9: an empty dict performs no write; an age-only dict returns
the row with exactly that field overwritten. -/
theorem update_touches_only_supplied_fields_witness :
    update_person_db wStore1 1 {} = (get_person_db wStore1 1, wStore1)
    ∧ (update_person_db wStore1 1 wU).1 = some (applyUpdate wU wStore1.now wRec) :=
  ⟨(update_touches_only_supplied_fields wStore1 1 {}).1 (by decide),
   (update_touches_only_supplied_fields wStore1 1 wU).2.1 (by decide) wRec (by decide)⟩

/-! Claim C4. -/

/-- C4: creating with a validated postal code whose lookup succeeds persists
one new row whose address fields are identical to the resolved address (and
whose scalar fields come from the payload); creating with no postal code
persists one new row with all five address fields NULL; a failed lookup on a
supplied code aborts with a 400 reply and leaves the store untouched. -/
theorem create_person_address_enrichment (provider : String → ProviderOutcome)
    (s : Store) (p : PersonIn) :
    (∀ c a, p.cep = some c → fetchViaCep provider c = some a →
      ∃ r, create_person provider s p
          = (.ok (PersonOut.ofRecord r),
             { rows := s.rows ++ [r], nextId := s.nextId + 1, now := s.now + 1 }, 1)
        ∧ r.cep = some a.cep ∧ r.street = a.street
        ∧ r.neighborhood = a.neighborhood ∧ r.city = a.city ∧ r.state = a.state
        ∧ r.first_name = p.first_name ∧ r.last_name = p.last_name ∧ r.age = p.age
        ∧ r.height_cm = p.height_cm ∧ r.weight_kg = p.weight_kg)
    ∧ (p.cep = none →
      ∃ r, create_person provider s p
          = (.ok (PersonOut.ofRecord r),
             { rows := s.rows ++ [r], nextId := s.nextId + 1, now := s.now + 1 }, 0)
        ∧ r.cep = none ∧ r.street = none ∧ r.neighborhood = none
        ∧ r.city = none ∧ r.state = none)
    ∧ (∀ c, p.cep = some c → fetchViaCep provider c = none →
        create_person provider s p = (.fail 400, s, 1)) := by
  refine ⟨?_, ?_, ?_⟩
  · intro c a hc ha
    refine ⟨{ id := s.nextId, first_name := p.first_name, last_name := p.last_name,
              age := p.age, height_cm := p.height_cm, weight_kg := p.weight_kg,
              cep := some a.cep, street := a.street, neighborhood := a.neighborhood,
              city := a.city, state := a.state,
              created_at := s.now, updated_at := s.now }, ?_,
            rfl, rfl, rfl, rfl, rfl, rfl, rfl, rfl, rfl, rfl⟩
    simp only [create_person, hc, ha, create_person_db]
  · intro hc
    refine ⟨{ id := s.nextId, first_name := p.first_name, last_name := p.last_name,
              age := p.age, height_cm := p.height_cm, weight_kg := p.weight_kg,
              cep := none, street := none, neighborhood := none,
              city := none, state := none,
              created_at := s.now, updated_at := s.now }, ?_,
            rfl, rfl, rfl, rfl, rfl⟩
    simp only [create_person, hc, create_person_db]
  · intro c hc ha
    simp only [create_person, hc, ha]

/-- The address `cexProvider` resolves for 01001000. -/
def cexAddrA : AddressInfo :=
  { cep := "01001000", street := some "Praca da Se", neighborhood := some "Se",
    city := some "Sao Paulo", state := some "SP" }

/-- A validated create payload with the fully populated code. -/
def wInFull : PersonIn :=
  { first_name := "Ana", last_name := "Silva", age := 30, cep := some "01001000" }

/-- A validated create payload with no postal code. -/
def wInNoCep : PersonIn := { first_name := "Bia", last_name := "Souza", age := 25 }

/-- A validated create payload with a syntactically valid but unknown code. -/
def wInBad : PersonIn :=
  { first_name := "Caio", last_name := "Lima", age := 40, cep := some "99999999" }

/-- Witness for C4 at three concrete payloads: successful enrichment, absent
postal code, and unknown postal code. -/
theorem create_person_address_enrichment_witness :
    (∃ r, create_person cexProvider initStore wInFull
        = (.ok (PersonOut.ofRecord r),
           { rows := initStore.rows ++ [r], nextId := initStore.nextId + 1,
             now := initStore.now + 1 }, 1)
      ∧ r.cep = some cexAddrA.cep ∧ r.street = cexAddrA.street
      ∧ r.neighborhood = cexAddrA.neighborhood ∧ r.city = cexAddrA.city
      ∧ r.state = cexAddrA.state
      ∧ r.first_name = wInFull.first_name ∧ r.last_name = wInFull.last_name
      ∧ r.age = wInFull.age ∧ r.height_cm = wInFull.height_cm
      ∧ r.weight_kg = wInFull.weight_kg)
    ∧ (∃ r, create_person cexProvider initStore wInNoCep
        = (.ok (PersonOut.ofRecord r),
           { rows := initStore.rows ++ [r], nextId := initStore.nextId + 1,
             now := initStore.now + 1 }, 0)
      ∧ r.cep = none ∧ r.street = none ∧ r.neighborhood = none
      ∧ r.city = none ∧ r.state = none)
    ∧ create_person cexProvider initStore wInBad = (.fail 400, initStore, 1) :=
  ⟨(create_person_address_enrichment cexProvider initStore wInFull).1
      "01001000" cexAddrA rfl (by decide),
   (create_person_address_enrichment cexProvider initStore wInNoCep).2.1 rfl,
   (create_person_address_enrichment cexProvider initStore wInBad).2.2
      "99999999" rfl (by decide)⟩

/-! Claim C2. -/

/-- C2 counterexample: moving a person from 01001000 to the city-level code
29100000, whose lookup succeeds but resolves no street, does not write the
resolved (absent) street: the old street survives, because `update_person_db`
drops `None` values from the SET clause.  The postal-only update therefore
does not write all five address fields to the resolved values. -/
theorem cep_update_keeps_street_when_resolved_street_absent :
    fetchViaCep cexProvider "29100000" = some cexAddrB
    ∧ cexAddrB.street = none
    ∧ (∃ r, get_person_db
        (update_person_cep cexProvider
          (runOps cexProvider initStore [Op.createOp cexRawIn]) 1
          { cep := "29100000" }).2.1 1 = some r
      ∧ r.street = some "Praca da Se" ∧ r.cep = some "29100000") := by
  decide

/-- C2 (amended): a postal-only update on an existing person whose lookup
succeeds responds with the updated row, writes the resolved postal code, and
writes each of street, neighborhood, city and state to the resolved value when
the lookup supplied one while keeping the previous value when it did not;
first_name, last_name, age, height_cm, weight_kg and created_at are untouched,
and updated_at is stamped with the current clock, strictly advancing it for
any row written in the past. -/
theorem cep_update_effect_and_frame (provider : String → ProviderOutcome)
    (s : Store) (pid : Nat) (cu : CEPUpdate) (r : PersonRecord) (a : AddressInfo)
    (hget : get_person_db s pid = some r)
    (ha : fetchViaCep provider cu.cep = some a) :
    ∃ r2, (update_person_cep provider s pid cu).1 = .ok (PersonOut.ofRecord r2)
      ∧ (update_person_cep provider s pid cu).2.2 = 1
      ∧ get_person_db (update_person_cep provider s pid cu).2.1 pid = some r2
      ∧ r2.cep = some a.cep
      ∧ r2.street = setCol a.street r.street
      ∧ r2.neighborhood = setCol a.neighborhood r.neighborhood
      ∧ r2.city = setCol a.city r.city
      ∧ r2.state = setCol a.state r.state
      ∧ r2.first_name = r.first_name ∧ r2.last_name = r.last_name
      ∧ r2.age = r.age ∧ r2.height_cm = r.height_cm ∧ r2.weight_kg = r.weight_kg
      ∧ r2.created_at = r.created_at
      ∧ r2.updated_at = s.now
      ∧ (r.updated_at < s.now → r.updated_at < r2.updated_at) := by
  have hne : (⟨none, none, none, none, none, some a.cep, a.street,
      a.neighborhood, a.city, a.state⟩ : UpdateData).isEmpty = false := by
    simp [UpdateData.isEmpty]
  have hfind := find?_map_update s.rows pid
    (applyUpdate ⟨none, none, none, none, none, some a.cep, a.street,
      a.neighborhood, a.city, a.state⟩ s.now)
    (applyUpdate_id _ s.now) r hget
  have hdb : update_person_db s pid
      ⟨none, none, none, none, none, some a.cep, a.street,
        a.neighborhood, a.city, a.state⟩
      = (some (applyUpdate ⟨none, none, none, none, none, some a.cep, a.street,
          a.neighborhood, a.city, a.state⟩ s.now r),
         { rows := s.rows.map (fun x => if x.id == pid then
             applyUpdate ⟨none, none, none, none, none, some a.cep, a.street,
               a.neighborhood, a.city, a.state⟩ s.now x else x),
           nextId := s.nextId, now := s.now + 1 }) := by
    simp only [update_person_db, hne, Bool.false_eq_true, if_false]
    rw [Prod.mk.injEq]
    exact ⟨hfind, rfl⟩
  refine ⟨applyUpdate ⟨none, none, none, none, none, some a.cep, a.street,
      a.neighborhood, a.city, a.state⟩ s.now r, ?_, ?_, ?_,
    rfl, rfl, rfl, rfl, rfl, rfl, rfl, rfl, rfl, rfl, rfl, rfl, fun h => h⟩
  · simp only [update_person_cep, hget, ha, hdb]
  · simp only [update_person_cep, hget, ha, hdb]
  · simp only [update_person_cep, hget, ha, hdb]
    simp only [get_person_db]
    exact hfind

/-- Witness for C2 at a one-row store and the city-level code 29100000. -/
theorem cep_update_effect_and_frame_witness :
    ∃ r2, (update_person_cep cexProvider wStore1 1 { cep := "29100000" }).1
        = .ok (PersonOut.ofRecord r2)
      ∧ (update_person_cep cexProvider wStore1 1 { cep := "29100000" }).2.2 = 1
      ∧ get_person_db
          (update_person_cep cexProvider wStore1 1 { cep := "29100000" }).2.1 1
        = some r2
      ∧ r2.cep = some cexAddrB.cep
      ∧ r2.street = setCol cexAddrB.street wRec.street
      ∧ r2.neighborhood = setCol cexAddrB.neighborhood wRec.neighborhood
      ∧ r2.city = setCol cexAddrB.city wRec.city
      ∧ r2.state = setCol cexAddrB.state wRec.state
      ∧ r2.first_name = wRec.first_name ∧ r2.last_name = wRec.last_name
      ∧ r2.age = wRec.age ∧ r2.height_cm = wRec.height_cm
      ∧ r2.weight_kg = wRec.weight_kg
      ∧ r2.created_at = wRec.created_at
      ∧ r2.updated_at = wStore1.now
      ∧ (wRec.updated_at < wStore1.now → wRec.updated_at < r2.updated_at) :=
  cep_update_effect_and_frame cexProvider wStore1 1 { cep := "29100000" }
    wRec cexAddrB (by decide) (by decide)

/-! Claim C7. -/

/-- The page returned by the repository list is sorted by `created_at`
descending. -/
theorem list_persons_db_sorted (s : Store) (limit offset : Nat) :
    List.Sorted (fun a b : PersonRecord => b.created_at ≤ a.created_at)
      (list_persons_db s limit offset).1 := by
  haveI : IsTotal PersonRecord (fun a b => b.created_at ≤ a.created_at) :=
    ⟨fun a b => Nat.le_total b.created_at a.created_at⟩
  haveI : IsTrans PersonRecord (fun a b => b.created_at ≤ a.created_at) :=
    ⟨fun a b c hab hbc => Nat.le_trans hbc hab⟩
  have hs := List.sorted_insertionSort
    (fun a b : PersonRecord => b.created_at ≤ a.created_at) s.rows
  exact List.Pairwise.sublist
    ((List.take_sublist _ _).trans (List.drop_sublist _ _)) hs

/-- C7: list accepts exactly limits in [1,100] with offsets at least 0 and
rejects the rest; on acceptance it returns the page of rows ordered by
`created_at` descending together with the total count, the page length is
`min limit (total - offset)`, and `has_next` holds exactly when
`offset + limit < total`; in particular, on 120 rows, limit 50 with offset 0
gives 50 rows, total 120 and a next page, and limit 50 with offset 100 gives
20 rows and no next page. -/
theorem list_pagination_contract (s : Store) (limit offset : Int) :
    ((1 ≤ limit ∧ limit ≤ 100 ∧ 0 ≤ offset) →
      ∃ out, list_persons s limit offset = .ok out
        ∧ out.total = s.rows.length
        ∧ out.persons
            = (list_persons_db s limit.toNat offset.toNat).1.map PersonOut.ofRecord
        ∧ List.Sorted (fun a b : PersonRecord => b.created_at ≤ a.created_at)
            (list_persons_db s limit.toNat offset.toNat).1
        ∧ out.persons.length = min limit.toNat (s.rows.length - offset.toNat)
        ∧ (out.has_next = true ↔ offset + limit < (s.rows.length : Int))
        ∧ (s.rows.length = 120 → limit = 50 → offset = 0 →
            out.persons.length = 50 ∧ out.total = 120 ∧ out.has_next = true)
        ∧ (s.rows.length = 120 → limit = 50 → offset = 100 →
            out.persons.length = 20 ∧ out.has_next = false))
    ∧ (¬(1 ≤ limit ∧ limit ≤ 100 ∧ 0 ≤ offset) →
        list_persons s limit offset = .fail 422) := by
  have hlen : ∀ l o : Nat, (list_persons_db s l o).1.length
      = min l (s.rows.length - o) := by
    intro l o
    simp [list_persons_db, List.length_take, List.length_drop,
      List.length_insertionSort, Nat.min_comm]
  constructor
  · intro hv
    refine ⟨⟨(list_persons_db s limit.toNat offset.toNat).1.map PersonOut.ofRecord,
             (list_persons_db s limit.toNat offset.toNat).2, limit, offset,
             decide (offset + limit
               < ((list_persons_db s limit.toNat offset.toNat).2 : Int))⟩,
            ?_, rfl, rfl, list_persons_db_sorted s _ _, ?_, ?_, ?_, ?_⟩
    · unfold list_persons
      rw [if_pos hv]
    · simpa using hlen limit.toNat offset.toNat
    · simp [list_persons_db]
    · intro h120 hl ho
      subst hl; subst ho
      refine ⟨?_, ?_, ?_⟩
      · rw [List.length_map, hlen, h120]; decide
      · simpa [list_persons_db] using h120
      · simp [list_persons_db, h120]
    · intro h120 hl ho
      subst hl; subst ho
      refine ⟨?_, ?_⟩
      · rw [List.length_map, hlen, h120]; decide
      · simp [list_persons_db, h120]
  · intro hv
    unfold list_persons
    rw [if_neg hv]

/-- Witness for C7: a one-row store rejects limit 0 and serves limit 1. -/
theorem list_pagination_contract_witness :
    list_persons wStore1 0 0 = .fail 422
    ∧ (∃ out, list_persons wStore1 1 0 = .ok out
        ∧ out.total = wStore1.rows.length) :=
  ⟨(list_pagination_contract wStore1 0 0).2 (by decide), by
    obtain ⟨out, h1, h2, -⟩ := (list_pagination_contract wStore1 1 0).1 (by decide)
    exact ⟨out, h1, h2⟩⟩

/-! Claim C1. -/

/-- The address-consistency property the specification states for one record:
either the whole address group is absent, or the four sub-fields are exactly
the values of the successful lookup on the record's current postal code. -/
def addrConsistent (lookup : String → Option AddressInfo) (r : PersonRecord) :
    Prop :=
  (r.cep = none ∧ r.street = none ∧ r.neighborhood = none
    ∧ r.city = none ∧ r.state = none)
  ∨ (∃ c a, r.cep = some c ∧ lookup c = some a ∧ r.street = a.street
      ∧ r.neighborhood = a.neighborhood ∧ r.city = a.city ∧ r.state = a.state)

/-- Provider assumption: every successful lookup carries all four address
sub-fields. -/
def LookupFull (provider : String → ProviderOutcome) : Prop :=
  ∀ raw a, fetchViaCep provider raw = some a →
    a.street.isSome ∧ a.neighborhood.isSome ∧ a.city.isSome ∧ a.state.isSome

/-- Provider assumption: resolving the postal code reported by a successful
lookup returns that same address. -/
def LookupCanonical (provider : String → ProviderOutcome) : Prop :=
  ∀ raw a, fetchViaCep provider raw = some a →
    fetchViaCep provider a.cep = some a

/-- Every row of the store is address-consistent. -/
def AddrInv (provider : String → ProviderOutcome) (s : Store) : Prop :=
  ∀ r ∈ s.rows, addrConsistent (fetchViaCep provider) r

/-- An update dict is address-safe when it either touches no address column or
carries all five address entries of one canonically resolvable, fully
populated address. -/
def SafeUpdate (provider : String → ProviderOutcome) (u : UpdateData) : Prop :=
  (u.cep = none ∧ u.street = none ∧ u.neighborhood = none
    ∧ u.city = none ∧ u.state = none)
  ∨ (∃ a : AddressInfo, fetchViaCep provider a.cep = some a
      ∧ a.street.isSome ∧ a.neighborhood.isSome ∧ a.city.isSome ∧ a.state.isSome
      ∧ u.cep = some a.cep ∧ u.street = a.street ∧ u.neighborhood = a.neighborhood
      ∧ u.city = a.city ∧ u.state = a.state)

/-- Setting a column to a present value keeps that value. -/
theorem setCol_of_isSome {α : Type} {v : Option α} (x : Option α)
    (h : v.isSome) : setCol v x = v := by
  cases v with
  | none => simp at h
  | some w => rfl

/-- Address consistency only depends on the five address fields. -/
theorem addrConsistent_congr {l : String → Option AddressInfo}
    {r r2 : PersonRecord} (h1 : r2.cep = r.cep) (h2 : r2.street = r.street)
    (h3 : r2.neighborhood = r.neighborhood) (h4 : r2.city = r.city)
    (h5 : r2.state = r.state) (h : addrConsistent l r) : addrConsistent l r2 := by
  unfold addrConsistent at h ⊢
  rw [h1, h2, h3, h4, h5]
  exact h

/-- An address-safe update preserves address consistency of the row it hits. -/
theorem applyUpdate_consistent {provider : String → ProviderOutcome}
    {u : UpdateData} {now : Nat} {r : PersonRecord}
    (hu : SafeUpdate provider u) (hr : addrConsistent (fetchViaCep provider) r) :
    addrConsistent (fetchViaCep provider) (applyUpdate u now r) := by
  rcases hu with ⟨h1, h2, h3, h4, h5⟩ |
    ⟨a, hca, hs1, hs2, hs3, hs4, e1, e2, e3, e4, e5⟩
  · exact addrConsistent_congr (by simp [applyUpdate, h1, setCol])
      (by simp [applyUpdate, h2, setCol]) (by simp [applyUpdate, h3, setCol])
      (by simp [applyUpdate, h4, setCol]) (by simp [applyUpdate, h5, setCol]) hr
  · right
    refine ⟨a.cep, a, ?_, hca, ?_, ?_, ?_, ?_⟩
    · simp only [applyUpdate]; rw [e1]; rfl
    · simp only [applyUpdate]; rw [e2]; exact setCol_of_isSome _ hs1
    · simp only [applyUpdate]; rw [e3]; exact setCol_of_isSome _ hs2
    · simp only [applyUpdate]; rw [e4]; exact setCol_of_isSome _ hs3
    · simp only [applyUpdate]; rw [e5]; exact setCol_of_isSome _ hs4

/-- The repository update preserves the store invariant for address-safe
update dicts. -/
theorem update_person_db_inv {provider : String → ProviderOutcome} {s : Store}
    {u : UpdateData} (pid : Nat) (hinv : AddrInv provider s)
    (hu : SafeUpdate provider u) :
    AddrInv provider (update_person_db s pid u).2 := by
  unfold update_person_db
  split
  · exact hinv
  · intro x hx
    simp only [List.mem_map] at hx
    obtain ⟨y, hy, rfl⟩ := hx
    by_cases hid : (y.id == pid) = true
    · rw [if_pos hid]
      exact applyUpdate_consistent hu (hinv y hy)
    · rw [if_neg hid]
      exact hinv y hy

/-- Case analysis of the store produced by the create handler. -/
theorem create_person_store (provider : String → ProviderOutcome) (s : Store)
    (p : PersonIn) :
    (create_person provider s p).2.1 = s
    ∨ (∃ r, (create_person provider s p).2.1
        = { rows := s.rows ++ [r], nextId := s.nextId + 1, now := s.now + 1 }
      ∧ ((r.cep = none ∧ r.street = none ∧ r.neighborhood = none
          ∧ r.city = none ∧ r.state = none)
        ∨ ∃ c e, p.cep = some c ∧ fetchViaCep provider c = some e
            ∧ r.cep = some e.cep ∧ r.street = e.street
            ∧ r.neighborhood = e.neighborhood ∧ r.city = e.city
            ∧ r.state = e.state)) := by
  unfold create_person
  cases hc : p.cep with
  | none =>
    right
    exact ⟨_, rfl, Or.inl ⟨rfl, rfl, rfl, rfl, rfl⟩⟩
  | some c =>
    cases hf : fetchViaCep provider c with
    | none =>
      left
      simp only [hf]
    | some e =>
      right
      refine ⟨⟨s.nextId, p.first_name, p.last_name, p.age, p.height_cm,
        p.weight_kg, some e.cep, e.street, e.neighborhood, e.city, e.state,
        s.now, s.now⟩, ?_, Or.inr ⟨c, e, rfl, hf, rfl, rfl, rfl, rfl, rfl⟩⟩
      simp only [hf]
      rfl

/-- Case analysis of the store produced by the full-update handler. -/
theorem update_person_store (provider : String → ProviderOutcome) (s : Store)
    (pid : Nat) (pu : PersonUpdate) :
    (update_person provider s pid pu).2.1 = s
    ∨ (update_person provider s pid pu).2.1
        = (update_person_db s pid ⟨pu.first_name, pu.last_name, pu.age,
            pu.height_cm, pu.weight_kg, none, none, none, none, none⟩).2
    ∨ (∃ c e, pu.cep = some c ∧ fetchViaCep provider c = some e
        ∧ (update_person provider s pid pu).2.1
          = (update_person_db s pid ⟨pu.first_name, pu.last_name, pu.age,
              pu.height_cm, pu.weight_kg, some e.cep, e.street, e.neighborhood,
              e.city, e.state⟩).2) := by
  unfold update_person
  cases hg : get_person_db s pid with
  | none => left; rfl
  | some r0 =>
    cases hc : pu.cep with
    | none =>
      right; left
      cases hdb : update_person_db s pid ⟨pu.first_name, pu.last_name, pu.age,
          pu.height_cm, pu.weight_kg, none, none, none, none, none⟩ with
      | mk res s2 =>
        cases res with
        | none => simp only [hdb]
        | some r => simp only [hdb]
    | some c =>
      cases hf : fetchViaCep provider c with
      | none =>
        left
        simp only [hf]
      | some e =>
        right; right
        refine ⟨c, e, rfl, hf, ?_⟩
        simp only [hf]
        cases hdb : update_person_db s pid ⟨pu.first_name, pu.last_name, pu.age,
            pu.height_cm, pu.weight_kg, some e.cep, e.street, e.neighborhood,
            e.city, e.state⟩ with
        | mk res s2 =>
          cases res with
          | none => rfl
          | some r => rfl

/-- Case analysis of the store produced by the postal-only update handler. -/
theorem update_person_cep_store (provider : String → ProviderOutcome)
    (s : Store) (pid : Nat) (cu : CEPUpdate) :
    (update_person_cep provider s pid cu).2.1 = s
    ∨ (∃ e, fetchViaCep provider cu.cep = some e
        ∧ (update_person_cep provider s pid cu).2.1
          = (update_person_db s pid ⟨none, none, none, none, none, some e.cep,
              e.street, e.neighborhood, e.city, e.state⟩).2) := by
  unfold update_person_cep
  cases hg : get_person_db s pid with
  | none => left; rfl
  | some r0 =>
    cases hf : fetchViaCep provider cu.cep with
    | none =>
      left
      simp only [hf]
    | some e =>
      right
      refine ⟨e, rfl, ?_⟩
      simp only [hf]
      cases hdb : update_person_db s pid ⟨none, none, none, none, none,
          some e.cep, e.street, e.neighborhood, e.city, e.state⟩ with
      | mk res s2 =>
        cases res with
        | none => rfl
        | some r => rfl

/-- The delete handler only filters rows. -/
theorem delete_person_store (s : Store) (pid : Nat) :
    (delete_person s pid).2
      = { s with rows := s.rows.filter (fun r => r.id != pid) } := by
  unfold delete_person delete_person_db
  cases s.rows.any (fun r => r.id == pid) <;> rfl

/-- One public request preserves the address invariant, for a provider whose
successful lookups are fully populated and canonical. -/
theorem stepOp_inv {provider : String → ProviderOutcome} {s : Store}
    (hfull : LookupFull provider) (hcanon : LookupCanonical provider)
    (hinv : AddrInv provider s) (op : Op) :
    AddrInv provider (stepOp provider s op) := by
  cases op with
  | createOp raw =>
    show AddrInv provider (createRequest provider s raw).2.1
    unfold createRequest
    cases hv : validatePersonIn raw with
    | none => exact hinv
    | some p =>
      show AddrInv provider (create_person provider s p).2.1
      rcases create_person_store provider s p with heq | ⟨r, heq, hr⟩
      · rw [heq]; exact hinv
      · rw [heq]
        intro x hx
        rw [List.mem_append] at hx
        rcases hx with hx | hx
        · exact hinv x hx
        · rw [List.mem_singleton] at hx
          subst hx
          rcases hr with ⟨h1, h2, h3, h4, h5⟩ |
            ⟨c, e, hc, hf, e1, e2, e3, e4, e5⟩
          · exact Or.inl ⟨h1, h2, h3, h4, h5⟩
          · exact Or.inr ⟨e.cep, e, e1, hcanon c e hf, e2, e3, e4, e5⟩
  | updateOp pid raw =>
    show AddrInv provider (match validatePersonUpdate raw with
      | none => s
      | some pu => (update_person provider s pid pu).2.1)
    cases hv : validatePersonUpdate raw with
    | none => exact hinv
    | some pu =>
      show AddrInv provider (update_person provider s pid pu).2.1
      rcases update_person_store provider s pid pu with heq | heq |
        ⟨c, e, hc, hf, heq⟩
      · rw [heq]; exact hinv
      · rw [heq]
        exact update_person_db_inv pid hinv (Or.inl ⟨rfl, rfl, rfl, rfl, rfl⟩)
      · rw [heq]
        obtain ⟨hs1, hs2, hs3, hs4⟩ := hfull c e hf
        exact update_person_db_inv pid hinv
          (Or.inr ⟨e, hcanon c e hf, hs1, hs2, hs3, hs4,
            rfl, rfl, rfl, rfl, rfl⟩)
  | updateCepOp pid raw =>
    show AddrInv provider (match validateCEPUpdate raw with
      | none => s
      | some cu => (update_person_cep provider s pid cu).2.1)
    cases hv : validateCEPUpdate raw with
    | none => exact hinv
    | some cu =>
      show AddrInv provider (update_person_cep provider s pid cu).2.1
      rcases update_person_cep_store provider s pid cu with heq | ⟨e, hf, heq⟩
      · rw [heq]; exact hinv
      · rw [heq]
        obtain ⟨hs1, hs2, hs3, hs4⟩ := hfull cu.cep e hf
        exact update_person_db_inv pid hinv
          (Or.inr ⟨e, hcanon cu.cep e hf, hs1, hs2, hs3, hs4,
            rfl, rfl, rfl, rfl, rfl⟩)
  | deleteOp pid =>
    show AddrInv provider (delete_person s pid).2
    rw [delete_person_store]
    intro x hx
    rw [List.mem_filter] at hx
    exact hinv x hx.1

/-- A request sequence preserves the address invariant. -/
theorem runOps_inv (provider : String → ProviderOutcome)
    (hfull : LookupFull provider) (hcanon : LookupCanonical provider) :
    ∀ (ops : List Op) (s : Store), AddrInv provider s →
      AddrInv provider (runOps provider s ops) := by
  intro ops
  induction ops with
  | nil => intro s h; exact h
  | cons op ops ih =>
    intro s h
    exact ih _ (stepOp_inv hfull hcanon h op)

/-- C1 counterexample: create a person at the fully populated code 01001000,
then move them to the city-level code 29100000 through the postal-only update
endpoint.  The resolved address for 29100000 has no street, the SET clause
drops the `None`, and the final record keeps the street resolved for 01001000
next to the city resolved for 29100000: a reachable record mixing values from
two different postal codes. -/
theorem cep_update_can_mix_address_fields :
    ∃ r, r ∈ (runOps cexProvider initStore cexOps).rows
      ∧ ¬ addrConsistent (fetchViaCep cexProvider) r := by
  refine ⟨⟨1, "Ana", "Silva", 30, none, none, some "29100000",
    some "Praca da Se", some "Se", some "Vila Velha", some "ES", 0, 1⟩,
    by decide, ?_⟩
  rintro (⟨h1, -, -, -, -⟩ | ⟨c, a, hc, ha, hs, -, -, -⟩)
  · exact Option.noConfusion h1
  · have hcc : c = "29100000" := by injection hc with h; exact h.symm
    subst hcc
    have hB : fetchViaCep cexProvider "29100000" = some cexAddrB := by decide
    rw [hB] at ha
    have haa : a = cexAddrB := by injection ha with h; exact h.symm
    subst haa
    simp [cexAddrB] at hs

/-- C1 (amended): provided every successful lookup of the provider carries all
four address sub-fields and re-resolving a reported code returns the same
address, every record reachable from the empty store through the public
operations (create, full update, postal-only update, delete) has its address
sub-fields all equal to the values resolved for its current postal code, or
all five address fields absent. -/
theorem address_consistency_with_full_canonical_lookups
    (provider : String → ProviderOutcome) (ops : List Op)
    (hfull : LookupFull provider) (hcanon : LookupCanonical provider) :
    ∀ r ∈ (runOps provider initStore ops).rows,
      addrConsistent (fetchViaCep provider) r :=
  runOps_inv provider hfull hcanon ops initStore
    (by intro r hr; simp [initStore] at hr)

/-- Every successful resolution through the constant provider `wProvider`
yields `wAddr`. -/
theorem wProvider_resolves (raw : String) (a : AddressInfo)
    (h : fetchViaCep wProvider raw = some a) : a = wAddr := by
  unfold fetchViaCep fetchViaCepUncached at h
  by_cases h8 : (stripNonDigits raw).length = 8
  · rw [if_pos h8] at h
    have hh : handleProviderOutcome (wProvider (stripNonDigits raw))
        = some wAddr := rfl
    rw [show ((handleProviderOutcome (wProvider (stripNonDigits raw)), 1) :
        Option AddressInfo × Nat).1
      = handleProviderOutcome (wProvider (stripNonDigits raw)) from rfl, hh] at h
    injection h with h2
    exact h2.symm
  · rw [if_neg h8] at h
    exact absurd h (by simp)

/-- The record created by `wProvider` from `cexRawIn`. -/
def wFinalRec : PersonRecord :=
  { id := 1, first_name := "Ana", last_name := "Silva", age := 30,
    height_cm := none, weight_kg := none, cep := some "01001000",
    street := some "Rua A", neighborhood := some "Centro",
    city := some "Sao Paulo", state := some "SP",
    created_at := 0, updated_at := 0 }

/-- Witness for C1 with the fully populated canonical provider `wProvider`
and a single create request. -/
theorem address_consistency_witness :
    addrConsistent (fetchViaCep wProvider) wFinalRec :=
  address_consistency_with_full_canonical_lookups wProvider
    [Op.createOp cexRawIn]
    (fun raw a h => by rw [wProvider_resolves raw a h]; decide)
    (fun raw a h => by rw [wProvider_resolves raw a h]; decide)
    wFinalRec (by decide)

/-- Witness for C8: deleting the missing id 99 gives the 404 outcome with the
store untouched, and a second delete of id 1 reports `false`. -/
theorem delete_not_found_and_idempotent_witness :
    delete_person wStore1 99 = (.fail 404, wStore1)
    ∧ (delete_person_db (delete_person_db wStore1 1).2 1).1 = false :=
  ⟨(delete_reports_existence_and_second_delete_not_found wStore1 99).2.1
      (by decide),
   (delete_reports_existence_and_second_delete_not_found wStore1 1).2.2
      (by decide)⟩

end PersonsApi
